import Mathlib

/-!
Verification development for the CAMPUSLA1 map-document compiler
(`src/app.py`).  The script reads a CSV of named polygonal regions and a
background image and emits one self-contained HTML document with an SVG
image-map overlay.  We give a shallow embedding of `find_popup_image`,
`get_base64_of_bin_file` and `generate_interactive_map` and prove the
specification's claims about them.

Modelling conventions:
* A CSV cell is either `Cell.nan` (pandas' missing-cell marker `NaN`,
  produced for an empty field) or `Cell.val s`, where `s` is the `str()`
  rendering of the parsed cell value.
* The filesystem is a pair of maps: `fileExists : String → Bool` embeds
  `os.path.exists`, and `read : String → Option (List Nat)` embeds opening
  and reading a file's bytes (`none` = any IO failure, which
  `get_base64_of_bin_file` swallows and turns into Python `None`).
* The result of `pd.read_csv` is a `CsvResult`: file absent, parse error,
  or a header row plus data rows (each row positionally aligned with the
  headers, as a pandas row Series is).
* Python string operations are re-implemented structurally over `List Char`
  so that every definition evaluates by kernel reduction.  `.str.lower()`
  is modelled as ASCII lowercasing and `.strip()` as trimming ASCII
  whitespace; on the ASCII header and cell data the script manipulates,
  these agree with Python.
-/

namespace CampusMap

/-- ASCII whitespace recogniser used to model Python's `str.strip`. -/
def isWsp (c : Char) : Bool :=
  c = Char.ofNat 32 || c = Char.ofNat 9 || c = Char.ofNat 10 || c = Char.ofNat 13

/-- Trim of a character list: drop leading and trailing whitespace. -/
def trimList (l : List Char) : List Char :=
  ((l.dropWhile isWsp).reverse.dropWhile isWsp).reverse

/-- Model of Python `str.strip()`. -/
def strTrim (s : String) : String := ⟨trimList s.data⟩

/-- Model of Python `str.lower()` (ASCII range). -/
def strLower (s : String) : String := ⟨s.data.map Char.toLower⟩

/-- Header normalisation, embedding
`df.columns = df.columns.str.strip().str.lower()` (src/app.py line 90). -/
def normalizeHeader (s : String) : String := strLower (strTrim s)

/-- Model of Python `str.startswith`. -/
def strStartsWith (s pre : String) : Bool := pre.data.isPrefixOf s.data

/-- Does the string contain the given character?  Models Python's
`c in s`. -/
def strContainsChar (s : String) (c : Char) : Bool := s.data.any (fun x => x = c)

/-- Does `pat` occur as a contiguous substring of `s`? -/
def occursInB (pat s : String) : Bool :=
  s.data.tails.any (fun t => pat.data.isPrefixOf t)

/-- Python truthiness of a string: nonempty. -/
def pyTruthy (s : String) : Bool := !s.data.isEmpty

/-- Membership of a string in a list of strings. -/
def memStr : List String → String → Bool
  | [], _ => false
  | y :: ys, x => if y = x then true else memStr ys x

/-- Concatenation of the strings produced by `f` over a list, in order. -/
def concatMapStr (f : α → String) : List α → String
  | [] => ""
  | x :: xs => f x ++ concatMapStr f xs

/-- The 64 digits of standard base64. -/
def b64Digits : List Char :=
  "ABCDEFGHIJKLMNOPQRSTUVWXYZabcdefghijklmnopqrstuvwxyz0123456789+/".data

/-- The base64 digit with the given 6-bit index. -/
def b64Digit (n : Nat) : Char := b64Digits.getD n (Char.ofNat 65)

/-- Standard base64 of a byte sequence (RFC 4648, with `=` padding),
modelling Python's `base64.b64encode(data).decode()`. -/
def base64Encode : List Nat → String
  | [] => ""
  | [a] =>
      ⟨[b64Digit (a / 4), b64Digit (a % 4 * 16), Char.ofNat 61, Char.ofNat 61]⟩
  | [a, b] =>
      ⟨[b64Digit (a / 4), b64Digit (a % 4 * 16 + b / 16),
        b64Digit (b % 16 * 4), Char.ofNat 61]⟩
  | a :: b :: c :: rest =>
      (⟨[b64Digit (a / 4), b64Digit (a % 4 * 16 + b / 16),
         b64Digit (b % 16 * 4 + c / 64), b64Digit (c % 64)]⟩ : String)
      ++ base64Encode rest

/-- Python `repr`-style escaping of one character (backslash, newline,
carriage return, tab, and the chosen quote character `q`). -/
def pyEscChar (q c : Char) : List Char :=
  if c = Char.ofNat 92 then [Char.ofNat 92, Char.ofNat 92]
  else if c = Char.ofNat 10 then [Char.ofNat 92, Char.ofNat 110]
  else if c = Char.ofNat 13 then [Char.ofNat 92, Char.ofNat 114]
  else if c = Char.ofNat 9 then [Char.ofNat 92, Char.ofNat 116]
  else if c = q then [Char.ofNat 92, q]
  else [c]

/-- Escape every character of a list, `pyEscChar`-style. -/
def pyEscAux (q : Char) : List Char → List Char
  | [] => []
  | c :: cs => pyEscChar q c ++ pyEscAux q cs

/-- Python `repr` of a string, for printable ASCII content: single quotes
unless the string contains a single quote and no double quote, in which
case double quotes are used. -/
def pyStrRepr (s : String) : String :=
  if strContainsChar s (Char.ofNat 39) && !strContainsChar s (Char.ofNat 34) then
    ⟨Char.ofNat 34 :: (pyEscAux (Char.ofNat 34) s.data ++ [Char.ofNat 34])⟩
  else
    ⟨Char.ofNat 39 :: (pyEscAux (Char.ofNat 39) s.data ++ [Char.ofNat 39])⟩

/-- Python `str` of a list of strings, as produced by an f-string
interpolation such as `f"{missing_cols}"`: bracketed, comma-separated
`repr`s of the elements. -/
def pyListRepr (l : List String) : String :=
  "[" ++ String.intercalate ", " (l.map pyStrRepr) ++ "]"

/-- A parsed CSV cell: pandas' `NaN` marker for an empty field, or the
`str()` rendering of the parsed value. -/
inductive Cell where
  | nan : Cell
  | val : String → Cell
deriving DecidableEq

/-- Python `str()` of a cell value: `str(float('nan'))` is `"nan"`. -/
def cellStr : Cell → String
  | Cell.nan => "nan"
  | Cell.val s => s

/-- One dataset row: its cells, positionally aligned with the header row. -/
abbrev Row := List Cell

/-- Outcome of `pd.read_csv` (src/app.py lines 87-94): absent file
(`FileNotFoundError`), any other parse failure (with its message), or the
parsed header row and data rows. -/
inductive CsvResult where
  | notFound : CsvResult
  | parseError : String → CsvResult
  | ok : List String → List Row → CsvResult
deriving DecidableEq

/-- The world `generate_interactive_map` reads: the parse result of the
CSV at `csv_path`, the `os.path.exists` map, the file-contents map, and
the intrinsic pixel dimensions of the background image (metadata the
script never inspects, carried so claims about them can be stated). -/
structure FS where
  csv : CsvResult
  fileExists : String → Bool
  read : String → Option (List Nat)
  imgWidth : Nat
  imgHeight : Nat

/-- Look a column name up in a row, positionally: the model of indexing a
pandas row Series by label. -/
def lookupCol : List String → List Cell → String → Option Cell
  | c :: cs, v :: vs, key => if c = key then some v else lookupCol cs vs key
  | _, _, _ => none

/-- Model of `str(row.get(key, default))`: the `str()` of the cell when
the column exists (so `NaN` reads `"nan"`), the default otherwise. -/
def pyStrGet (cols : List String) (cells : List Cell) (key default : String) :
    String :=
  match lookupCol cols cells key with
  | some c => cellStr c
  | none => default

/-- Python f-string rendering of an `Optional[str]`: `None` prints as
`"None"`. -/
def pyOptStr : Option String → String
  | some s => s
  | none => "None"

/-- Embedding of `get_base64_of_bin_file` (src/app.py lines 58-65): read
the file's bytes and base64-encode them, returning `None` on any failure. -/
def get_base64_of_bin_file (rd : String → Option (List Nat)) (bin_file : String) :
    Option String :=
  (rd bin_file).map base64Encode

/-- The extension candidates tried by `find_popup_image`, in order. -/
def extensions : List String := [".jpg", ".jpeg", ".png"]

/-- The `for ext in extensions` loop of `find_popup_image`
(src/app.py lines 78-83): first existing candidate wins, else `None`. -/
def findFirstExt (ex : String → Bool) (clean_name : String) :
    List String → Option String
  | [] => none
  | ext :: rest =>
      if ex (clean_name ++ ext) then some (clean_name ++ ext)
      else findFirstExt ex clean_name rest

/-- Embedding of `find_popup_image` (src/app.py lines 67-83): `None` for a
non-string argument (pandas `NaN`), otherwise try the trimmed name with
each extension against `os.path.exists`. -/
def find_popup_image (ex : String → Bool) (image_name : Cell) : Option String :=
  match image_name with
  | Cell.nan => none
  | Cell.val s => findFirstExt ex (strTrim s) extensions

/-- Link formatting (src/app.py lines 127-131): prepend `https://` to a
truthy link that starts with neither `http://` nor `https://`. -/
def formatLink (raw_link : String) : String :=
  if pyTruthy raw_link
      && !(strStartsWith raw_link "http://" || strStartsWith raw_link "https://")
  then "https://" ++ raw_link
  else raw_link

/-- The link of a row: `str(row.get('link url', '#'))` then `formatLink`
(src/app.py lines 125-131). -/
def rowLink (cols : List String) (cells : List Cell) : String :=
  formatLink (pyStrGet cols cells "link url" "#")

/-- The raw coordinates text of a row: `str(row.get('coordinates', ''))`
(src/app.py line 124). -/
def rowCoords (cols : List String) (cells : List Cell) : String :=
  pyStrGet cols cells "coordinates" ""

/-- The tooltip title of a row: `str(row.get('space', ''))`
(src/app.py line 134). -/
def rowTitle (cols : List String) (cells : List Cell) : String :=
  pyStrGet cols cells "space" ""

/-- The tooltip description of a row:
`f"Capacity: {capacity} | Type: {site_type}"` (src/app.py lines 135-137). -/
def rowDesc (cols : List String) (cells : List Cell) : String :=
  "Capacity: " ++ pyStrGet cols cells "capacity" ""
    ++ " | Type: " ++ pyStrGet cols cells "indoor/outdoor" ""

/-- The preview reference of a row: `row.get('actual site', '')`, whose
default branch yields the (string) empty name (src/app.py line 140). -/
def actualSiteOf (cols : List String) (cells : List Cell) : Cell :=
  match lookupCol cols cells "actual site" with
  | some c => c
  | none => Cell.val ""

/-- The generic no-image placeholder URL (src/app.py line 147). -/
def placeholder_src : String := "https://via.placeholder.com/300x200?text=No+Image"

/-- The tooltip image source of a row (src/app.py lines 140-147): the
resolved preview file inline-encoded, or the placeholder URL. -/
def rowPopupSrc (ex : String → Bool) (rd : String → Option (List Nat))
    (cols : List String) (cells : List Cell) : String :=
  match find_popup_image ex (actualSiteOf cols cells) with
  | some p => "data:image/jpeg;base64," ++ pyOptStr (get_base64_of_bin_file rd p)
  | none => placeholder_src

/-- The HTML escaping applied to title and description
(src/app.py lines 150-151): `s.replace("'", "&#39;")`, realised as the
per-character expansion of each single quote. -/
def escAux : List Char → List Char
  | [] => []
  | c :: cs =>
      (if c = Char.ofNat 39 then "&#39;".data else [c]) ++ escAux cs

/-- Embedding of `title.replace("'", "&#39;")` (src/app.py lines 150-151). -/
def safe_string (s : String) : String := ⟨escAux s.data⟩

/-- Fragment template piece before the link (src/app.py line 154). -/
def fragA : String := "\n        <a href=\x22"

/-- Fragment template piece between link and the `points` attribute
(src/app.py lines 154-155). -/
def fragB : String :=
  "\x22 target=\x22_blank\x22>\n            <polygon class=\x22map-poly\x22 "

/-- Fragment template piece between the `points` attribute and the title
(src/app.py lines 155-156). -/
def fragC : String := " \n                onmousemove=\x22showTooltip(evt, \x27"

/-- Fragment template separator between the quoted script-string arguments
(src/app.py line 156). -/
def fragQ : String := "\x27, \x27"

/-- Fragment template piece after the popup image source
(src/app.py lines 156-160). -/
def fragE : String :=
  "\x27)\x22 \n                onmouseout=\x22hideTooltip()\x22>\n            </polygon>\n        </a>\n        "

/-- The region fragment of one row: the f-string appended to
`polygons_html` on each loop iteration (src/app.py lines 123-160). -/
def rowFragment (ex : String → Bool) (rd : String → Option (List Nat))
    (cols : List String) (cells : List Cell) : String :=
  fragA ++ rowLink cols cells
    ++ fragB ++ "points=\x22" ++ rowCoords cols cells ++ "\x22"
    ++ fragC ++ safe_string (rowTitle cols cells)
    ++ fragQ ++ safe_string (rowDesc cols cells)
    ++ fragQ ++ rowPopupSrc ex rd cols cells
    ++ fragE

/-- The `polygons_html` accumulation loop (src/app.py lines 121-160):
`polygons_html += f"""..."""` over the rows in order. -/
def polygonsHtml (ex : String → Bool) (rd : String → Option (List Nat))
    (cols : List String) (rows : List Row) : String :=
  rows.foldl (fun acc cells => acc ++ rowFragment ex rd cols cells) ""

/-- The required columns (src/app.py line 97). -/
def required_cols : List String := ["coordinates", "link url", "space", "actual site"]

/-- The normalised header row: `df.columns` after line 90 of src/app.py. -/
def normalizedCols (headers : List String) : List String :=
  headers.map normalizeHeader

/-- The missing-columns check (src/app.py line 98):
`[c for c in required_cols if c not in df.columns]`. -/
def missingCols (headers : List String) : List String :=
  required_cols.filter (fun c => !memStr (normalizedCols headers) c)

/-- Error document for an absent CSV file (src/app.py line 92). -/
def datasetNotFoundDoc : String :=
  "<h3 style=\x27color:white; text-align:center\x27>Error: spaces.csv not found.</h3>"

/-- Error document for any other CSV read failure (src/app.py line 94). -/
def csvReadErrorDoc (e : String) : String :=
  "<h3 style=\x27color:white; text-align:center\x27>Error reading CSV: " ++ e ++ "</h3>"

/-- Error document for an absent background image (src/app.py line 114). -/
def imageNotFoundDoc : String :=
  "<h3 style=\x27color:white; text-align:center\x27>Error: Background image1.jpg not found.</h3>"

/-- The schema-error document (src/app.py lines 100-107), carrying the
f-string renderings of the missing-column list and the found-column list. -/
def schemaErrorDoc (missing found : List String) : String :=
  "\n        <div style=\x27background: darkred; color: white; padding: 20px;\x27>\n            <h3>CSV Error</h3>\n            <p>Missing columns: <b>"
    ++ pyListRepr missing
    ++ "</b></p>\n            <p>Found columns: <b>"
    ++ pyListRepr found
    ++ "</b></p>\n        </div>\n        "

/-- The background image source (src/app.py lines 110-112): the data URI
with the base64 payload, `None` printing as `"None"` when the read fails. -/
def imgSrcOf (rd : String → Option (List Nat)) (image_path : String) : String :=
  "data:image/jpeg;base64," ++ pyOptStr (get_base64_of_bin_file rd image_path)

/-- Hardcoded SVG coordinate-frame width (src/app.py line 118). -/
def svg_width : Nat := 1920

/-- Hardcoded SVG coordinate-frame height (src/app.py line 119). -/
def svg_height : Nat := 1305

/-- The `viewBox` attribute of the overlay (src/app.py line 233). -/
def viewBoxAttr (w h : Nat) : String :=
  "viewBox=\x220 0 " ++ Nat.repr w ++ " " ++ Nat.repr h ++ "\x22"

/-- Document template up to `<img src="` (src/app.py lines 163-232). -/
def htmlA : String := "\n    <!DOCTYPE html>\n    <html>\n    <head>\n    <style>\n        body \x7b margin: 0; padding: 0; background-color: #000; overflow-x: hidden; \x7d\n        \n        /* Container settings */\n        .map-container \x7b \n            position: relative; \n            width: 100%; \n            max-width: 100%;\n            height: auto; \n            overflow: hidden;\n        \x7d\n        \n        /* Image responsive */\n        .map-image \x7b \n            width: 100%; \n            height: auto; \n            display: block; \n        \x7d\n        \n        /* SVG Overlay */\n        .map-svg \x7b \n            position: absolute; \n            top: 0; \n            left: 0; \n            width: 100%; \n            height: 100%; \n        \x7d\n        \n        /* Interaction Styling */\n        .map-poly \x7b \n            fill: transparent; \n            stroke: none; \n            cursor: pointer; \n            transition: all 0.2s ease; \n        \x7d\n        \n        .map-poly:hover \x7b \n            fill: rgba(255, 215, 0, 0.3); /* Gold Highlight */\n            stroke: rgba(255, 255, 255, 0.6); \n            stroke-width: 2px; \n        \x7d\n        \n        /* Tooltip Styling */\n        #tooltip \x7b\n            display: none;\n            position: fixed; \n            background: rgba(15, 15, 15, 0.95);\n            color: white;\n            border: 1px solid #555;\n            border-radius: 6px;\n            padding: 12px;\n            font-family: sans-serif;\n            pointer-events: none;\n            z-index: 10000;\n            width: 240px;\n            box-shadow: 0 4px 20px rgba(0,0,0,0.8);\n        \x7d\n        #tooltip img \x7b width: 100%; height: 140px; object-fit: cover; border-radius: 4px; margin-bottom: 8px; background: #333; \x7d\n        #tooltip h4 \x7b margin: 0 0 4px 0; color: #ffbf00; font-size: 16px; font-weight: 600; \x7d\n        #tooltip p \x7b margin: 0; font-size: 13px; color: #ddd; \x7d\n    </style>\n    </head>\n    <body>\n\n    <div class=\x22map-container\x22>\n        <img src=\x22"

/-- Document template from after the image source to `<svg `
(src/app.py lines 232-233). -/
def htmlB : String := "\x22 class=\x22map-image\x22>\n        <svg "

/-- Document template from after the `viewBox` attribute to the polygons
(src/app.py lines 233-234). -/
def htmlC : String := " class=\x22map-svg\x22 preserveAspectRatio=\x22none\x22>\n            "

/-- Document template after the polygons (src/app.py lines 234-275). -/
def htmlD : String := "\n        </svg>\n    </div>\n\n    <div id=\x22tooltip\x22>\n        <img id=\x22tt-img\x22 src=\x22\x22 alt=\x22Space Preview\x22>\n        <h4 id=\x22tt-name\x22></h4>\n        <p id=\x22tt-desc\x22></p>\n    </div>\n\n    <script>\n        var tooltip = document.getElementById(\x22tooltip\x22);\n        var ttName = document.getElementById(\x22tt-name\x22);\n        var ttDesc = document.getElementById(\x22tt-desc\x22);\n        var ttImg = document.getElementById(\x22tt-img\x22);\n\n        function showTooltip(evt, name, desc, imgUrl) \x7b\n            tooltip.style.display = \x22block\x22;\n            ttName.innerHTML = name;\n            ttDesc.innerHTML = desc;\n            ttImg.src = imgUrl;\n            \n            var x = evt.clientX;\n            var y = evt.clientY;\n            \n            var tooltipW = 260;\n            var tooltipH = 250;\n            \n            if (x + tooltipW > window.innerWidth) \x7b x = x - tooltipW; \x7d\n            if (y + tooltipH > window.innerHeight) \x7b y = y - tooltipH; \x7d\n\n            tooltip.style.left = (x + 15) + \x22px\x22;\n            tooltip.style.top = (y + 15) + \x22px\x22;\n        \x7d\n\n        function hideTooltip() \x7b\n            tooltip.style.display = \x22none\x22;\n        \x7d\n    </script>\n    </body>\n    </html>\n    "

/-- Assembly of the final document (src/app.py lines 163-275). -/
def htmlDoc (img_src : String) (w h : Nat) (polygons_html : String) : String :=
  htmlA ++ img_src ++ htmlB ++ viewBoxAttr w h ++ htmlC ++ polygons_html ++ htmlD

/-- Embedding of `generate_interactive_map` (src/app.py lines 85-276). -/
def generate_interactive_map (fs : FS) (image_path : String) : String :=
  match fs.csv with
  | CsvResult.notFound => datasetNotFoundDoc
  | CsvResult.parseError e => csvReadErrorDoc e
  | CsvResult.ok headers rows =>
      if missingCols headers ≠ [] then
        schemaErrorDoc (missingCols headers) (normalizedCols headers)
      else if fs.fileExists image_path then
        htmlDoc (imgSrcOf fs.read image_path) svg_width svg_height
          (polygonsHtml fs.fileExists fs.read (normalizedCols headers) rows)
      else imageNotFoundDoc

/-- Tail-recursive disequality test on character lists (its evaluation
keeps a constant stack, unlike `List.hasDecEq`). -/
def charListNe : List Char → List Char → Bool
  | [], [] => false
  | [], _ :: _ => true
  | _ :: _, [] => true
  | a :: as, b :: bs => if a = b then charListNe as bs else true

/-- Tail-recursive disequality test on strings. -/
def strNe (a b : String) : Bool := charListNe a.data b.data

/-- `charListNe` is irreflexive. -/
theorem charListNe_self : ∀ l : List Char, charListNe l l = false
  | [] => rfl
  | a :: as => by simp [charListNe, charListNe_self as]

/-- A positive `strNe` test separates the two strings. -/
theorem ne_of_strNe {a b : String} (h : strNe a b = true) : a ≠ b := by
  intro hab
  rw [hab] at h
  simp [strNe, charListNe_self] at h

/-- The `+=` accumulation loop equals the ordered concatenation of the
per-element strings. -/
theorem foldl_append_concatMap (f : α → String) :
    ∀ (l : List α) (init : String),
      l.foldl (fun acc x => acc ++ f x) init = init ++ concatMapStr f l
  | [], init => by simp [concatMapStr]
  | x :: xs, init => by
      simp only [List.foldl, concatMapStr]
      rw [foldl_append_concatMap f xs (init ++ f x), String.append_assoc]

/-- `polygonsHtml` is the ordered concatenation of one fragment per row. -/
theorem polygonsHtml_eq_concatMap (ex : String → Bool)
    (rd : String → Option (List Nat)) (cols : List String) (rows : List Row) :
    polygonsHtml ex rd cols rows = concatMapStr (rowFragment ex rd cols) rows := by
  unfold polygonsHtml
  rw [foldl_append_concatMap, String.empty_append]

/-- A list is a prefix of itself followed by anything. -/
theorem isPrefixOf_append_self : ∀ (p t : List Char), p.isPrefixOf (p ++ t) = true
  | [], _ => by simp [List.isPrefixOf]
  | a :: as, t => by simp [List.isPrefixOf, isPrefixOf_append_self as t]

/-- A whole list that starts with the pattern witnesses a positive search
over its tails. -/
theorem any_tails_of_isPrefix (p : List Char) :
    ∀ m : List Char, p.isPrefixOf m = true →
      (m.tails.any fun s => p.isPrefixOf s) = true
  | [], h => by simpa [List.tails] using h
  | c :: cs, h => by rw [List.tails_cons, List.any_cons, h, Bool.true_or]

/-- Any explicit decomposition witnesses a positive substring search. -/
theorem tails_any_isPrefix (p t : List Char) :
    ∀ l : List Char, ((l ++ (p ++ t)).tails.any fun s => p.isPrefixOf s) = true
  | [] => by
      rw [List.nil_append]
      exact any_tails_of_isPrefix p (p ++ t) (isPrefixOf_append_self p t)
  | c :: l => by
      rw [List.cons_append, List.tails_cons, List.any_cons,
        tails_any_isPrefix p t l, Bool.or_true]

/-- `occursInB` finds a pattern placed explicitly in the middle. -/
theorem occursInB_middle (pat x y : String) :
    occursInB pat (x ++ (pat ++ y)) = true := by
  unfold occursInB
  rw [String.data_append, String.data_append]
  exact tails_any_isPrefix pat.data y.data x.data

/-- The single-quote escaper leaves no single quote in its output. -/
theorem escAux_no_quote : ∀ l : List Char,
    (escAux l).any (fun x => x = Char.ofNat 39) = false
  | [] => rfl
  | c :: cs => by
      by_cases h : c = Char.ofNat 39
      · simp [escAux, h, escAux_no_quote cs]
      · simp [escAux, h, escAux_no_quote cs]

/-- A nonempty string is Python-truthy. -/
theorem pyTruthy_of_ne {s : String} (h : s ≠ "") : pyTruthy s = true := by
  obtain ⟨d⟩ := s
  cases d with
  | nil => exact absurd rfl h
  | cons c cs => rfl

/-- Decoding of the `&#39;` character reference, the browser-side reading
of the escaped text (only this one entity is ever produced by the code). -/
def decAux : List Char → List Char
  | '&' :: '#' :: '3' :: '9' :: ';' :: rest => Char.ofNat 39 :: decAux rest
  | c :: cs => c :: decAux cs
  | [] => []

/-- String-level `&#39;` decoding. -/
def htmlDecode39 (s : String) : String := ⟨decAux s.data⟩

/-- The spec's claimed relationship between the document's embedded
coordinate system and the background image: the `viewBox` built from the
image's intrinsic dimensions occurs in the compiled document. -/
def viewBoxMatchesImage (fs : FS) (image_path : String) : Bool :=
  occursInB (viewBoxAttr fs.imgWidth fs.imgHeight)
    (generate_interactive_map fs image_path)

/-- A raw double quote in a value embedded into a double-quoted HTML
attribute terminates the attribute early; this tests whether the escaped
form of a label still carries one. -/
def breaksDoubleQuotedAttr (s : String) : Bool :=
  strContainsChar (safe_string s) (Char.ofNat 34)

/-! ### Concrete fixtures used by witnesses and counterexamples -/

/-- A header row with incidental casing and whitespace that normalises to
the required schema. -/
def stdHeaders : List String := ["Coordinates", " LINK URL ", "space", "Actual Site"]

/-- The required header row, already in normal form. -/
def reqHeaders : List String := ["coordinates", "link url", "space", "actual site"]

/-- One well-formed dataset row. -/
def stdRow : Row :=
  [Cell.val "10,10 20,20", Cell.val "example.com", Cell.val "Hall", Cell.val "hall"]

/-- A row whose link cell is the empty-cell marker. -/
def nanLinkRow : Row :=
  [Cell.val "1,1 2,2", Cell.nan, Cell.val "Hall", Cell.val "hall"]

/-- A row whose preview-reference cell is the empty-cell marker. -/
def nanSiteRow : Row :=
  [Cell.val "1,1 2,2", Cell.val "a.com", Cell.val "Hall", Cell.nan]

/-- Existence map: the background image and one preview file are present. -/
def exStd : String → Bool := fun s => decide (s = "image1.jpg" ∨ s = "hall.jpeg")

/-- Existence map: only the `.jpeg` preview candidate is present. -/
def exJpeg : String → Bool := fun s => decide (s = "hall.jpeg")

/-- Existence map: nothing is present. -/
def exNone : String → Bool := fun _ => false

/-- Contents map for `exStd`. -/
def rdStd : String → Option (List Nat) := fun s =>
  if s = "image1.jpg" then some [255, 216, 1]
  else if s = "hall.jpeg" then some [7, 8, 9]
  else none

/-- Contents map agreeing with `rdStd` except that the preview file is
empty. -/
def rdEmptyPreview : String → Option (List Nat) := fun s =>
  if s = "image1.jpg" then some [255, 216, 1]
  else if s = "hall.jpeg" then some []
  else none

/-- A fully well-formed world with one dataset row. -/
def fsStd : FS := ⟨CsvResult.ok stdHeaders [stdRow], exStd, rdStd, 1920, 1305⟩

/-- A well-formed world (no rows) whose background image has intrinsic
dimensions 123 by 45 pixels. -/
def fsSmallImage : FS := ⟨CsvResult.ok stdHeaders [], exStd, rdStd, 123, 45⟩

/-- Same world as `fsStd` except the preview file's bytes: `rdStd` here. -/
def fsBytesA : FS := ⟨CsvResult.ok stdHeaders [stdRow], exStd, rdStd, 7, 7⟩

/-- Same world as `fsBytesA` except the preview file is empty. -/
def fsBytesB : FS := ⟨CsvResult.ok stdHeaders [stdRow], exStd, rdEmptyPreview, 7, 7⟩

/-- A header row missing two required columns. -/
def badHeaders : List String := ["Coordinates", "Space"]

/-- The label used by the spec's escaping test. -/
def exampleLabel : String := "It\x27s a \x22test\x22"

/-! ### Claims -/

/-- Claim C1: for every dataset that passes schema validation (and with
the background image present), the compiled document is the fixed template
wrapped around the ordered concatenation of exactly one region fragment
per dataset row, in the dataset's row order. -/
theorem c1_one_fragment_per_row (headers : List String) (rows : List Row)
    (ex : String → Bool) (rd : String → Option (List Nat)) (w h : Nat)
    (image_path : String)
    (hm : missingCols headers = []) (hi : ex image_path = true) :
    generate_interactive_map ⟨CsvResult.ok headers rows, ex, rd, w, h⟩ image_path
      = htmlDoc (imgSrcOf rd image_path) svg_width svg_height
          (concatMapStr (rowFragment ex rd (normalizedCols headers)) rows)
    ∧ (rows.map (rowFragment ex rd (normalizedCols headers))).length = rows.length := by
  constructor
  · unfold generate_interactive_map
    simp only [hm, hi]
    simp [polygonsHtml_eq_concatMap]
  · simp

/-- Witness for C1 at a concrete one-row dataset. -/
theorem c1_one_fragment_per_row_witness :
    generate_interactive_map ⟨CsvResult.ok stdHeaders [stdRow], exStd, rdStd, 1920, 1305⟩ "image1.jpg"
      = htmlDoc (imgSrcOf rdStd "image1.jpg") svg_width svg_height
          (concatMapStr (rowFragment exStd rdStd (normalizedCols stdHeaders)) [stdRow])
    ∧ ([stdRow].map (rowFragment exStd rdStd (normalizedCols stdHeaders))).length
        = [stdRow].length :=
  c1_one_fragment_per_row stdHeaders [stdRow] exStd rdStd 1920 1305 "image1.jpg"
    (by decide) (by decide)

/-- Claim C2: the compiler always returns a document (the embedding is a
total function into strings); in particular an absent table yields the
dataset-not-found document, a table parse failure yields the CSV-read
error document, and an absent background image (with a valid schema)
yields the image-not-found document. -/
theorem c2_error_documents (ex : String → Bool) (rd : String → Option (List Nat))
    (w h : Nat) (p e : String) (headers : List String) (rows : List Row) :
    generate_interactive_map ⟨CsvResult.notFound, ex, rd, w, h⟩ p = datasetNotFoundDoc
    ∧ generate_interactive_map ⟨CsvResult.parseError e, ex, rd, w, h⟩ p = csvReadErrorDoc e
    ∧ (missingCols headers = [] → ex p = false →
        generate_interactive_map ⟨CsvResult.ok headers rows, ex, rd, w, h⟩ p
          = imageNotFoundDoc) := by
  refine ⟨rfl, rfl, fun hm hi => ?_⟩
  unfold generate_interactive_map
  simp only [hm, hi]
  rw [if_neg (by simp), if_neg (by simp)]

/-- Witness for C2: the absent-table and absent-image documents at
concrete worlds. -/
theorem c2_error_documents_witness :
    generate_interactive_map ⟨CsvResult.notFound, exStd, rdStd, 0, 0⟩ "image1.jpg"
      = datasetNotFoundDoc
    ∧ generate_interactive_map ⟨CsvResult.ok stdHeaders [stdRow], exNone, rdStd, 0, 0⟩ "image1.jpg"
      = imageNotFoundDoc :=
  ⟨(c2_error_documents exStd rdStd 0 0 "image1.jpg" "" stdHeaders []).1,
   (c2_error_documents exNone rdStd 0 0 "image1.jpg" "" stdHeaders [stdRow]).2.2
     (by decide) (by decide)⟩

/-- Claim C3: headers are matched after trimming and lowercasing; when any
required field is missing the compiler returns the schema-error document
carrying exactly the missing-field list and exactly the normalised header
list, and it does so before touching the image or the rows (the output is
unchanged under any other filesystem, image metadata, or row data). -/
theorem c3_schema_error (headers : List String) (rows rows2 : List Row)
    (ex ex2 : String → Bool) (rd rd2 : String → Option (List Nat))
    (w h w2 h2 : Nat) (p p2 : String)
    (hm : missingCols headers ≠ []) :
    generate_interactive_map ⟨CsvResult.ok headers rows, ex, rd, w, h⟩ p
      = schemaErrorDoc (missingCols headers) (normalizedCols headers)
    ∧ generate_interactive_map ⟨CsvResult.ok headers rows, ex, rd, w, h⟩ p
      = generate_interactive_map ⟨CsvResult.ok headers rows2, ex2, rd2, w2, h2⟩ p2 := by
  have base : ∀ (rows' : List Row) (ex' : String → Bool)
      (rd' : String → Option (List Nat)) (w' h' : Nat) (p' : String),
      generate_interactive_map ⟨CsvResult.ok headers rows', ex', rd', w', h'⟩ p'
        = schemaErrorDoc (missingCols headers) (normalizedCols headers) := by
    intro rows' ex' rd' w' h' p'
    unfold generate_interactive_map
    simp only []
    rw [if_pos hm]
  exact ⟨base rows ex rd w h p, (base rows ex rd w h p).trans (base rows2 ex2 rd2 w2 h2 p2).symm⟩

/-- Witness for C3 at a concrete header row missing two required fields. -/
theorem c3_schema_error_witness :
    generate_interactive_map ⟨CsvResult.ok badHeaders [stdRow], exStd, rdStd, 1, 2⟩ "image1.jpg"
      = schemaErrorDoc (missingCols badHeaders) (normalizedCols badHeaders)
    ∧ generate_interactive_map ⟨CsvResult.ok badHeaders [stdRow], exStd, rdStd, 1, 2⟩ "image1.jpg"
      = generate_interactive_map ⟨CsvResult.ok badHeaders [], exNone, rdEmptyPreview, 3, 4⟩ "other.jpg" :=
  c3_schema_error badHeaders [stdRow] [] exStd exNone rdStd rdEmptyPreview 1 2 3 4
    "image1.jpg" "other.jpg" (by decide)

/-- Counterexample to Claim C4 as stated: in a schema-valid table an empty
link cell is pandas `NaN`, which `str()` renders as `"nan"`, so the row's
link becomes `"https://nan"`, not the claimed placeholder `"#"`. -/
theorem c4_empty_link_cex :
    rowLink reqHeaders nanLinkRow = "https://nan"
    ∧ rowLink reqHeaders nanLinkRow ≠ "#" :=
  ⟨by decide, by decide⟩

/-- Claim C4 (amended): a raw link starting with `http://` or `https://`
is unchanged; a nonempty raw link with neither prefix gets `https://`
prepended; and an empty link cell stringifies to `"nan"` and yields
`"https://nan"` (the `"#"` default would be used only if the link column
itself were absent, which schema validation precludes). -/
theorem c4_link_normalization (raw : String) (cols : List String) (cells : List Cell) :
    (strStartsWith raw "http://" = true ∨ strStartsWith raw "https://" = true →
      formatLink raw = raw)
    ∧ (raw ≠ "" → strStartsWith raw "http://" = false →
        strStartsWith raw "https://" = false →
        formatLink raw = "https://" ++ raw)
    ∧ (lookupCol cols cells "link url" = some Cell.nan →
        rowLink cols cells = "https://nan") := by
  refine ⟨fun hst => ?_, fun hne h1 h2 => ?_, fun hcell => ?_⟩
  · cases hst with
    | inl h => simp [formatLink, h]
    | inr h => simp [formatLink, h]
  · simp [formatLink, pyTruthy_of_ne hne, h1, h2]
  · rw [rowLink, pyStrGet, hcell]
    decide

/-- Witness for C4 (amended) at concrete links and a concrete row. -/
theorem c4_link_normalization_witness :
    formatLink "http://x.com" = "http://x.com"
    ∧ formatLink "example.com/a" = "https://" ++ "example.com/a"
    ∧ rowLink reqHeaders nanLinkRow = "https://nan" :=
  ⟨(c4_link_normalization "http://x.com" reqHeaders nanLinkRow).1 (Or.inl (by decide)),
   (c4_link_normalization "example.com/a" reqHeaders nanLinkRow).2.1
     (by decide) (by decide) (by decide),
   (c4_link_normalization "" reqHeaders nanLinkRow).2.2 (by decide)⟩

/-- Claim C5: preview resolution trims the reference name and tries
`.jpg`, `.jpeg`, `.png` in exactly that order, returning the first
existing candidate and `None` otherwise; when it returns `None` the row's
tooltip image source is the generic placeholder URL. -/
theorem c5_preview_resolution (ex : String → Bool) (rd : String → Option (List Nat))
    (name : String) :
    find_popup_image ex (Cell.val name)
      = (if ex (strTrim name ++ ".jpg") then some (strTrim name ++ ".jpg")
         else if ex (strTrim name ++ ".jpeg") then some (strTrim name ++ ".jpeg")
         else if ex (strTrim name ++ ".png") then some (strTrim name ++ ".png")
         else none)
    ∧ (∀ (cols : List String) (cells : List Cell),
        find_popup_image ex (actualSiteOf cols cells) = none →
        rowPopupSrc ex rd cols cells = placeholder_src) := by
  constructor
  · simp [find_popup_image, extensions, findFirstExt]
  · intro cols cells hnone
    rw [rowPopupSrc, hnone]

/-- Witness for C5: with only `hall.jpeg` on disk the `.jpeg` candidate of
the trimmed name `" hall "` wins, and with nothing on disk a row's tooltip
image is the placeholder. -/
theorem c5_preview_resolution_witness :
    find_popup_image exJpeg (Cell.val " hall ") = some "hall.jpeg"
    ∧ rowPopupSrc exNone rdStd reqHeaders stdRow = placeholder_src :=
  ⟨((c5_preview_resolution exJpeg rdStd " hall ").1).trans (by decide),
   (c5_preview_resolution exNone rdStd " hall ").2 reqHeaders stdRow (by decide)⟩

/-- Counterexample to Claim C6 as stated: the code escapes only the single
quote, so the escaped form of the spec's own example label `It's a "test"`
still contains a raw double quote and therefore terminates the
double-quoted `onmousemove` attribute it is embedded into. -/
theorem c6_unescaped_quote_cex : breaksDoubleQuotedAttr exampleLabel = true := by
  decide

/-- Claim C6 (amended): escaping removes every raw single quote (the
script-string delimiter at template level), and on the example label the
visible text decodes back to the original; but the double quote is left
unescaped, so the example label still breaks the surrounding double-quoted
attribute context. -/
theorem c6_single_quote_escaping :
    (∀ s : String, strContainsChar (safe_string s) (Char.ofNat 39) = false)
    ∧ safe_string exampleLabel = "It&#39;s a \x22test\x22"
    ∧ htmlDecode39 (safe_string exampleLabel) = exampleLabel
    ∧ breaksDoubleQuotedAttr exampleLabel = true :=
  ⟨fun s => escAux_no_quote s.data, by decide, by decide, by decide⟩

set_option maxRecDepth 400000 in
/-- Counterexample to Claim C7 as stated: for a background image of
intrinsic size 123 by 45 the compiled document does not contain the
viewBox built from the image's dimensions; it contains the hardcoded
`0 0 1920 1305` instead. -/
theorem c7_viewbox_cex :
    viewBoxMatchesImage fsSmallImage "image1.jpg" = false
    ∧ occursInB (viewBoxAttr 1920 1305)
        (generate_interactive_map fsSmallImage "image1.jpg") = true :=
  ⟨by decide, by decide⟩

/-- Claim C7 (amended): the document's embedded coordinate system is the
hardcoded constant `viewBox="0 0 1920 1305"`, and the compiled document is
unchanged under any change of the image's intrinsic dimensions. -/
theorem c7_viewbox_hardcoded (headers : List String) (rows : List Row)
    (ex : String → Bool) (rd : String → Option (List Nat))
    (w1 h1 w2 h2 : Nat) (p : String)
    (hm : missingCols headers = []) (hi : ex p = true) :
    occursInB (viewBoxAttr svg_width svg_height)
        (generate_interactive_map ⟨CsvResult.ok headers rows, ex, rd, w1, h1⟩ p) = true
    ∧ generate_interactive_map ⟨CsvResult.ok headers rows, ex, rd, w1, h1⟩ p
        = generate_interactive_map ⟨CsvResult.ok headers rows, ex, rd, w2, h2⟩ p
    ∧ svg_width = 1920 ∧ svg_height = 1305 := by
  refine ⟨?_, rfl, rfl, rfl⟩
  rw [(c1_one_fragment_per_row headers rows ex rd w1 h1 p hm hi).1]
  rw [htmlDoc]
  rw [show htmlA ++ imgSrcOf rd p ++ htmlB ++ viewBoxAttr svg_width svg_height
        ++ htmlC
        ++ concatMapStr (rowFragment ex rd (normalizedCols headers)) rows
        ++ htmlD
      = (htmlA ++ imgSrcOf rd p ++ htmlB)
        ++ (viewBoxAttr svg_width svg_height
            ++ (htmlC
                ++ concatMapStr (rowFragment ex rd (normalizedCols headers)) rows
                ++ htmlD)) by simp [String.append_assoc]]
  exact occursInB_middle _ _ _

/-- Witness for C7 (amended) at a concrete world. -/
theorem c7_viewbox_hardcoded_witness :
    occursInB (viewBoxAttr svg_width svg_height)
        (generate_interactive_map ⟨CsvResult.ok stdHeaders [stdRow], exStd, rdStd, 123, 45⟩ "image1.jpg") = true
    ∧ generate_interactive_map ⟨CsvResult.ok stdHeaders [stdRow], exStd, rdStd, 123, 45⟩ "image1.jpg"
        = generate_interactive_map ⟨CsvResult.ok stdHeaders [stdRow], exStd, rdStd, 1920, 1305⟩ "image1.jpg"
    ∧ svg_width = 1920 ∧ svg_height = 1305 :=
  c7_viewbox_hardcoded stdHeaders [stdRow] exStd rdStd 123 45 1920 1305 "image1.jpg"
    (by decide) (by decide)

/-- Claim C8: the coordinates cell is embedded verbatim in the polygon's
point-list attribute with no validation, and row contents cannot abort
compilation: the polygon section is always exactly the ordered
concatenation of one fragment per row, whatever the cells contain. -/
theorem c8_verbatim_coordinates (ex : String → Bool) (rd : String → Option (List Nat))
    (cols : List String) (rows : List Row) (cells : List Cell) :
    polygonsHtml ex rd cols rows = concatMapStr (rowFragment ex rd cols) rows
    ∧ (rows.map (rowFragment ex rd cols)).length = rows.length
    ∧ ∃ pre post, rowFragment ex rd cols cells
        = pre ++ ("points=\x22" ++ rowCoords cols cells ++ "\x22") ++ post := by
  refine ⟨polygonsHtml_eq_concatMap ex rd cols rows, by simp, ?_⟩
  refine ⟨fragA ++ rowLink cols cells ++ fragB,
    fragC ++ safe_string (rowTitle cols cells)
      ++ fragQ ++ safe_string (rowDesc cols cells)
      ++ fragQ ++ rowPopupSrc ex rd cols cells
      ++ fragE, ?_⟩
  simp [rowFragment, String.append_assoc]

set_option maxRecDepth 400000 in
/-- Counterexample to Claim C9 as stated: two worlds with identical table
contents, identical file-existence maps, and identical background-image
bytes, differing only in the bytes of one preview file, compile to
different documents — output is not a function of table contents, image
bytes, and preview-file presence alone. -/
theorem c9_preview_bytes_cex :
    fsBytesA.csv = fsBytesB.csv
    ∧ fsBytesA.fileExists = fsBytesB.fileExists
    ∧ fsBytesA.read "image1.jpg" = fsBytesB.read "image1.jpg"
    ∧ generate_interactive_map fsBytesA "image1.jpg"
        ≠ generate_interactive_map fsBytesB "image1.jpg" :=
  ⟨rfl, rfl, rfl, ne_of_strNe (by decide)⟩

/-- Claim C9 (amended): the compiler is a pure function of the parsed
table, the file-existence map, and the file-contents map (background and
preview bytes included); in particular it is independent of the image's
intrinsic-dimension metadata, and identical inputs give byte-identical
documents. -/
theorem c9_deterministic (fs1 fs2 : FS) (p : String)
    (hcsv : fs1.csv = fs2.csv) (hex : fs1.fileExists = fs2.fileExists)
    (hrd : fs1.read = fs2.read) :
    generate_interactive_map fs1 p = generate_interactive_map fs2 p := by
  obtain ⟨c1, e1, r1, w1, d1⟩ := fs1
  obtain ⟨c2, e2, r2, w2, d2⟩ := fs2
  have hc : c1 = c2 := hcsv
  have he : e1 = e2 := hex
  have hr : r1 = r2 := hrd
  subst hc; subst he; subst hr
  rfl

/-- Witness for C9 (amended): same maps, different image metadata, equal
documents. -/
theorem c9_deterministic_witness :
    generate_interactive_map fsBytesA "image1.jpg"
      = generate_interactive_map ⟨CsvResult.ok stdHeaders [stdRow], exStd, rdStd, 555, 666⟩ "image1.jpg" :=
  c9_deterministic fsBytesA ⟨CsvResult.ok stdHeaders [stdRow], exStd, rdStd, 555, 666⟩
    "image1.jpg" rfl rfl rfl

/-- Claim C10: for a non-string preview reference (the empty-cell marker),
the resolver returns `None` independently of the filesystem and without
failing, and such a row's tooltip image source is the generic placeholder
URL. -/
theorem c10_nonstring_preview (ex ex2 : String → Bool)
    (rd : String → Option (List Nat)) (cols : List String) (cells : List Cell) :
    find_popup_image ex Cell.nan = none
    ∧ find_popup_image ex Cell.nan = find_popup_image ex2 Cell.nan
    ∧ (lookupCol cols cells "actual site" = some Cell.nan →
        rowPopupSrc ex rd cols cells = placeholder_src) := by
  refine ⟨rfl, rfl, fun hcell => ?_⟩
  rw [rowPopupSrc, actualSiteOf, hcell]
  exact rfl

/-- Witness for C10 at a concrete row whose preview cell is empty. -/
theorem c10_nonstring_preview_witness :
    find_popup_image exStd Cell.nan = none
    ∧ rowPopupSrc exStd rdStd reqHeaders nanSiteRow = placeholder_src :=
  ⟨(c10_nonstring_preview exStd exNone rdStd reqHeaders nanSiteRow).1,
   (c10_nonstring_preview exStd exNone rdStd reqHeaders nanSiteRow).2.2 (by decide)⟩

end CampusMap
